import Mathlib

/-!
# librws: the public socket API (`src/rws_socketpub.c`)

A shallow embedding of the connection-lifecycle functions of `rws_socketpub.c`:
`rws_socket_create`, the configuration setters, `rws_socket_connect`,
`rws_socket_disconnect_and_release` and `rws_socket_delete`.

The handle is a C pointer to a mutable record.  Here a handle is `Option _rws_socket`:
`none` is the `NULL` pointer, `some s` is a pointer whose record currently holds `s`.
The record carries one ghost field, `heap_log`, the journal of an instrumented
allocator: every allocation, every free and every transport close is appended to it in
program order.  C does not define what a call through a freed handle reads: the record
returned by a releasing call is what the block held when it was freed, and claims about
the released handle are stated on the journal; only
`rws_socket_disconnect_and_release_twice` reads a freed block, through an explicit
allocator policy.
-/

namespace Librws

/-! ## Data model -/

/-- Modelled from the spec: the `rws_command` enumeration of `rws_socket.h`, which is not
part of the sources at hand; the spec gives `command ∈ {NONE, DISCONNECT, END}`. -/
inductive rws_command
  | COMMAND_NONE
  | COMMAND_DISCONNECT
  | COMMAND_END
  deriving DecidableEq, Repr

/-- Modelled from the spec: the error codes of `librws.h` (absent). `MissingParameter` is the
only kind this file produces; every other kind belongs to the worker collaborator. -/
inductive rws_error_code
  | rws_error_code_missed_parameter
  | rws_error_code_collaborator (kind : Nat)
  deriving DecidableEq, Repr

/-- Modelled from the spec: the error record of `rws_error.h` (absent), "code + description". -/
structure rws_error where
  code : rws_error_code
  description : String
  deriving DecidableEq, Repr

/-- Modelled from the spec: the frame descriptor of `rws_frame.h` (absent),
`{opcode, payload, fin}`. -/
structure rws_frame where
  opcode : Nat
  payload : List Nat
  fin : Bool
  deriving DecidableEq, Repr

/-- The two recursive locks owned by a handle. -/
inductive Mutex
  | work_mutex
  | send_mutex
  deriving DecidableEq, Repr

/-- Heap objects the instrumented allocator tells apart. -/
inductive Obj
  | handle
  | buffer (size : Nat)
  | bytes (data : List Nat)
  | mutex (m : Mutex)
  | string (str : String)
  | frame (f : rws_frame)
  | list (frames : List rws_frame)
  | error (e : rws_error)
  deriving DecidableEq, Repr

/-- One entry of the allocator journal. -/
inductive Event
  | alloc (o : Obj)
  | free (o : Obj)
  | close (fd : Nat)
  | sigpipe_handler
  deriving DecidableEq, Repr

/-- The record behind a handle (`_rws_socket` of `rws_socket.h`, restricted to the fields
`rws_socketpub.c` touches).  Pointers are `Option`s, `none` being `NULL`; `socket = none`
is `RWS_INVALID_SOCKET`; `work_mutex` and `send_mutex` hold the lock depth of the two
recursive locks; `heap_log` is the ghost allocator journal. -/
structure _rws_socket where
  port : Int
  socket : Option Nat
  scheme : Option String
  host : Option String
  path : Option String
  sec_ws_accept : Option String
  work_thread : Option Nat
  command : rws_command
  error : Option rws_error
  is_connected : Bool
  user_object : Option Nat
  on_connected : Option Nat
  on_disconnected : Option Nat
  on_recvd_text : Option Nat
  on_recvd_bin : Option Nat
  received : Option (List Nat)
  received_size : Nat
  received_len : Nat
  send_frames : Option (List rws_frame)
  recvd_frames : Option (List rws_frame)
  header_buff : Option Nat
  payload_buff : Option Nat
  work_mutex : Nat
  send_mutex : Nat
  heap_log : List Event
  deriving DecidableEq, Repr

/-- A handle as the public API receives it: `NULL` or a pointer to a record. -/
abbrev rws_socket := Option _rws_socket

/-- The sentinel for "no transport". -/
def RWS_INVALID_SOCKET : Option Nat := none

/-! ## Collaborators (memory, strings, lists, errors, locks)

None of these is defined in `rws_socketpub.c`; each is modelled from the interface the
spec requires of it.  A collaborator that receives the address of a field (`&s->scheme`)
is given the name of that field. -/

/-- Appends one entry to the allocator journal. -/
def journal (ev : Event) (s : _rws_socket) : _rws_socket :=
  { s with heap_log := s.heap_log ++ [ev] }

/-- The owned strings of the record. -/
inductive StringField
  | scheme
  | host
  | path
  | sec_ws_accept
  deriving DecidableEq, Repr

/-- Reads an owned string. -/
def StringField.get (f : StringField) (s : _rws_socket) : Option String :=
  match f with
  | StringField.scheme => s.scheme
  | StringField.host => s.host
  | StringField.path => s.path
  | StringField.sec_ws_accept => s.sec_ws_accept

/-- Stores into an owned string field. -/
def StringField.set (f : StringField) (v : Option String) (s : _rws_socket) : _rws_socket :=
  match f with
  | StringField.scheme => { s with scheme := v }
  | StringField.host => { s with host := v }
  | StringField.path => { s with path := v }
  | StringField.sec_ws_accept => { s with sec_ws_accept := v }

/-- The two frame queues of the record. -/
inductive FrameList
  | send_frames
  | recvd_frames
  deriving DecidableEq, Repr

/-- Reads a queue pointer. -/
def FrameList.get (q : FrameList) (s : _rws_socket) : Option (List rws_frame) :=
  match q with
  | FrameList.send_frames => s.send_frames
  | FrameList.recvd_frames => s.recvd_frames

/-- Stores a queue pointer. -/
def FrameList.set (q : FrameList) (v : Option (List rws_frame)) (s : _rws_socket) :
    _rws_socket :=
  match q with
  | FrameList.send_frames => { s with send_frames := v }
  | FrameList.recvd_frames => { s with recvd_frames := v }

/-- Modelled from the spec: `rws_malloc_zero(sizeof(_rws_socket))` (rws_memory.c, absent),
"allocates a zero-initialized handle". -/
def rws_malloc_zero : _rws_socket :=
  { port := 0, socket := some 0, scheme := none, host := none, path := none,
    sec_ws_accept := none, work_thread := none, command := rws_command.COMMAND_NONE,
    error := none, is_connected := false, user_object := none, on_connected := none,
    on_disconnected := none, on_recvd_text := none, on_recvd_bin := none,
    received := none, received_size := 0, received_len := 0, send_frames := none,
    recvd_frames := none, header_buff := none, payload_buff := none,
    work_mutex := 0, send_mutex := 0, heap_log := [Event.alloc Obj.handle] }

/-- Modelled from the spec: `rws_malloc(size)` (rws_memory.c, absent); returns the fresh
buffer and journals it. -/
def rws_malloc (size : Nat) (s : _rws_socket) : Option Nat × _rws_socket :=
  (some size, journal (Event.alloc (Obj.buffer size)) s)

/-- Modelled from the spec: `rws_free(mem)` on a scratch buffer (rws_memory.c, absent);
`NULL` is ignored. -/
def rws_free (mem : Option Nat) (s : _rws_socket) : _rws_socket :=
  match mem with
  | some size => journal (Event.free (Obj.buffer size)) s
  | none => s

/-- Modelled from the spec: `rws_free_clean(&s->received)` (rws_memory.c, absent): frees
the accumulator when there is one and clears the pointer. -/
def rws_free_clean_received (s : _rws_socket) : _rws_socket :=
  match s.received with
  | some data => journal (Event.free (Obj.bytes data)) { s with received := none }
  | none => s

/-- Modelled from the spec: `rws_string_delete(str)` (rws_string.c, absent): frees an owned
string, `NULL` is ignored. -/
def rws_string_delete (str : Option String) (s : _rws_socket) : _rws_socket :=
  match str with
  | some x => journal (Event.free (Obj.string x)) s
  | none => s

/-- Modelled from the spec: `rws_string_delete_clean(&s->field)` (rws_string.c, absent):
frees the string when there is one and clears the pointer. -/
def rws_string_delete_clean (f : StringField) (s : _rws_socket) : _rws_socket :=
  match f.get s with
  | some x => journal (Event.free (Obj.string x)) (f.set none s)
  | none => s

/-- Modelled from the spec: `rws_string_copy(str)` (rws_string.c, absent): "stores copy";
the copy of `NULL` is `NULL`. -/
def rws_string_copy (str : Option String) (s : _rws_socket) : Option String × _rws_socket :=
  match str with
  | some x => (some x, journal (Event.alloc (Obj.string x)) s)
  | none => (none, s)

/-- Modelled from the spec: `rws_error_new_code_descr(code, descr)` (rws_error.c, absent):
a fresh error record "code + description". -/
def rws_error_new_code_descr (code : rws_error_code) (descr : String) (s : _rws_socket) :
    rws_error × _rws_socket :=
  ({ code := code, description := descr },
   journal (Event.alloc (Obj.error { code := code, description := descr })) s)

/-- Modelled from the spec: `rws_error_delete_clean(&s->error)` (rws_error.c, absent):
"reset prior error slot": frees the stored error when there is one and clears the slot. -/
def rws_error_delete_clean (s : _rws_socket) : _rws_socket :=
  match s.error with
  | some e => journal (Event.free (Obj.error e)) { s with error := none }
  | none => s

/-- Modelled from the spec: `rws_socket_delete_all_frames_in_list(list)` (rws_socket.c,
absent): "freeing every queued frame"; a `NULL` list holds none. -/
def rws_socket_delete_all_frames_in_list (list : Option (List rws_frame)) (s : _rws_socket) :
    _rws_socket :=
  match list with
  | some frames =>
    { s with heap_log := s.heap_log ++ frames.map (fun f => Event.free (Obj.frame f)) }
  | none => s

/-- Modelled from the spec: `rws_list_delete_clean(&s->queue)` (rws_list.c, absent): frees
the list itself when there is one and clears the pointer. -/
def rws_list_delete_clean (q : FrameList) (s : _rws_socket) : _rws_socket :=
  match q.get s with
  | some frames => journal (Event.free (Obj.list frames)) (q.set none s)
  | none => s

/-- Modelled from the spec: `rws_mutex_lock(mutex)` (rws_thread.c, absent) on a re-entrant
lock: the holder goes one level deeper. -/
def rws_mutex_lock (m : Mutex) (s : _rws_socket) : _rws_socket :=
  match m with
  | Mutex.work_mutex => { s with work_mutex := s.work_mutex + 1 }
  | Mutex.send_mutex => { s with send_mutex := s.send_mutex + 1 }

/-- Modelled from the spec: `rws_mutex_unlock(mutex)` (rws_thread.c, absent): one level is
given back. -/
def rws_mutex_unlock (m : Mutex) (s : _rws_socket) : _rws_socket :=
  match m with
  | Mutex.work_mutex => { s with work_mutex := s.work_mutex - 1 }
  | Mutex.send_mutex => { s with send_mutex := s.send_mutex - 1 }

/-- Modelled from the spec: `rws_mutex_delete(mutex)` (rws_thread.c, absent): "destroys
both locks", one at a time. -/
def rws_mutex_delete (m : Mutex) (s : _rws_socket) : _rws_socket :=
  journal (Event.free (Obj.mutex m)) s

/-- Modelled from the spec: `rws_mutex_create_recursive()` (rws_thread.c, absent): a fresh
lock nobody holds. -/
def rws_mutex_create_recursive (m : Mutex) (s : _rws_socket) : _rws_socket :=
  match m with
  | Mutex.work_mutex => journal (Event.alloc (Obj.mutex m)) { s with work_mutex := 0 }
  | Mutex.send_mutex => journal (Event.alloc (Obj.mutex m)) { s with send_mutex := 0 }

/-- Modelled from the spec: `rws_socket_close(s)` (rws_socket.c, absent): "closes the
transport if open". -/
def rws_socket_close (s : _rws_socket) : _rws_socket :=
  match s.socket with
  | some fd => journal (Event.close fd) { s with socket := RWS_INVALID_SOCKET }
  | none => s

/-! ## The functions of `rws_socketpub.c` -/

/-- The local `params_error_msg` of `rws_socket_connect` after the five checks of lines
45-64: it starts as `NULL` and every failing check overwrites it. -/
def params_error_msg (s : _rws_socket) : Option String :=
  let msg : Option String := none
  let msg := if s.port ≤ 0 then some "No URL port provided" else msg
  let msg := if s.scheme.isNone then some "No URL scheme provided" else msg
  let msg := if s.host.isNone then some "No URL host provided" else msg
  let msg := if s.path.isNone then some "No URL path provided" else msg
  let msg := if s.on_disconnected.isNone then some "No on_disconnected callback provided" else msg
  msg

/-- `rws_socket_connect` (lines 34-72).  `rws_socket_create_start_work_thread` lives in
`rws_socket.c`, outside the sources at hand, and is taken as the parameter `start`: it
receives the record and gives back its verdict and the record as it left it. -/
def rws_socket_connect (start : _rws_socket → Bool × _rws_socket) (socket : rws_socket) :
    Bool × rws_socket :=
  match socket with
  | none => (false, none)
  | some s =>
    let s := rws_error_delete_clean s
    let msg := params_error_msg s
    let s := { s with received_len := 0 }
    match msg with
    | some descr =>
      let r := rws_error_new_code_descr rws_error_code.rws_error_code_missed_parameter descr s
      (false, some { r.2 with error := some r.1 })
    | none =>
      let r := start s
      (r.1, some r.2)

/-- `rws_socket_delete` (lines 180-216), statement by statement.  The record is kept
after the final `rws_free(s)`, which the journal records as `free handle`. -/
def rws_socket_delete (s : _rws_socket) : _rws_socket :=
  let s := rws_socket_close s
  let s := rws_string_delete_clean StringField.sec_ws_accept s
  let s := rws_free_clean_received s
  let s := { s with received_size := 0 }
  let s := { s with received_len := 0 }
  let s := rws_socket_delete_all_frames_in_list s.send_frames s
  let s := rws_list_delete_clean FrameList.send_frames s
  let s := rws_socket_delete_all_frames_in_list s.recvd_frames s
  let s := rws_list_delete_clean FrameList.recvd_frames s
  let s := rws_string_delete_clean StringField.scheme s
  let s := rws_string_delete_clean StringField.host s
  let s := rws_string_delete_clean StringField.path s
  let s := rws_string_delete_clean StringField.sec_ws_accept s
  let s := rws_error_delete_clean s
  let s := rws_free_clean_received s
  let s := rws_socket_delete_all_frames_in_list s.send_frames s
  let s := rws_list_delete_clean FrameList.send_frames s
  let s := rws_socket_delete_all_frames_in_list s.recvd_frames s
  let s := rws_list_delete_clean FrameList.recvd_frames s
  let s := rws_mutex_delete Mutex.work_mutex s
  let s := rws_mutex_delete Mutex.send_mutex s
  let s := rws_free s.header_buff s
  let s := rws_free s.payload_buff s
  journal (Event.free Obj.handle) s

/-- `rws_socket_disconnect_and_release` (lines 74-105). -/
def rws_socket_disconnect_and_release (socket : rws_socket) : rws_socket :=
  match socket with
  | none => none
  | some s =>
    let s := rws_mutex_lock Mutex.work_mutex s
    let s := rws_socket_delete_all_frames_in_list s.send_frames s
    let s := rws_list_delete_clean FrameList.send_frames s
    if s.is_connected then
      let s := { s with command := rws_command.COMMAND_DISCONNECT }
      some (rws_mutex_unlock Mutex.work_mutex s)
    else if s.work_thread.isSome then
      let s := { s with command := rws_command.COMMAND_END }
      some (rws_mutex_unlock Mutex.work_mutex s)
    else if s.command ≠ rws_command.COMMAND_END then
      let s := rws_mutex_unlock Mutex.work_mutex s
      some (rws_socket_delete s)
    else
      some s

/-- `rws_socket_create` (lines 152-178).  `mem` tells whether `rws_malloc_zero` returned
memory; the two buffer sizes are the constants `RWS_RECEIVE_HEADER_BUFF_SIZE` and
`RWS_RECEIVE_PAYLOAD_BUFF_SIZE` of `rws_socket.h`, which is absent. -/
def rws_socket_create (mem : Bool)
    (RWS_RECEIVE_HEADER_BUFF_SIZE RWS_RECEIVE_PAYLOAD_BUFF_SIZE : Nat) : rws_socket :=
  if !mem then none
  else
    let s := rws_malloc_zero
    let r := rws_malloc RWS_RECEIVE_HEADER_BUFF_SIZE s
    let s := { r.2 with header_buff := r.1 }
    let r := rws_malloc RWS_RECEIVE_PAYLOAD_BUFF_SIZE s
    let s := { r.2 with payload_buff := r.1 }
    let s := journal Event.sigpipe_handler s
    let s := { s with port := -1 }
    let s := { s with socket := RWS_INVALID_SOCKET }
    let s := { s with command := rws_command.COMMAND_NONE }
    let s := rws_mutex_create_recursive Mutex.work_mutex s
    let s := rws_mutex_create_recursive Mutex.send_mutex s
    some s

/-- `rws_socket_set_url` (lines 218-238). -/
def rws_socket_set_url (socket : rws_socket) (scheme host : Option String) (port : Int)
    (path : Option String) : rws_socket :=
  match socket with
  | none => none
  | some s =>
    let s := rws_string_delete s.scheme s
    let r := rws_string_copy scheme s
    let s := StringField.scheme.set r.1 r.2
    let s := rws_string_delete s.host s
    let r := rws_string_copy host s
    let s := StringField.host.set r.1 r.2
    let s := rws_string_delete s.path s
    let r := rws_string_copy path s
    let s := StringField.path.set r.1 r.2
    some { s with port := port }

/-- `rws_socket_set_scheme` (lines 240-248). -/
def rws_socket_set_scheme (socket : rws_socket) (scheme : Option String) : rws_socket :=
  match socket with
  | none => none
  | some s =>
    let s := rws_string_delete s.scheme s
    let r := rws_string_copy scheme s
    some (StringField.scheme.set r.1 r.2)

/-- `rws_socket_set_host` (lines 256-264). -/
def rws_socket_set_host (socket : rws_socket) (host : Option String) : rws_socket :=
  match socket with
  | none => none
  | some s =>
    let s := rws_string_delete s.host s
    let r := rws_string_copy host s
    some (StringField.host.set r.1 r.2)

/-- `rws_socket_set_path` (lines 272-280). -/
def rws_socket_set_path (socket : rws_socket) (path : Option String) : rws_socket :=
  match socket with
  | none => none
  | some s =>
    let s := rws_string_delete s.path s
    let r := rws_string_copy path s
    some (StringField.path.set r.1 r.2)

/-- `rws_socket_set_port` (lines 288-295). -/
def rws_socket_set_port (socket : rws_socket) (port : Int) : rws_socket :=
  match socket with
  | none => none
  | some s => some { s with port := port }

/-- `rws_socket_get_error` (lines 332-336). -/
def rws_socket_get_error (socket : rws_socket) : Option rws_error :=
  match socket with
  | none => none
  | some s => s.error

/-- `rws_socket_set_user_object` (lines 338-345). -/
def rws_socket_set_user_object (socket : rws_socket) (user_object : Option Nat) : rws_socket :=
  match socket with
  | none => none
  | some s => some { s with user_object := user_object }

/-- `rws_socket_set_on_connected` (lines 353-360). -/
def rws_socket_set_on_connected (socket : rws_socket) (callback : Option Nat) : rws_socket :=
  match socket with
  | none => none
  | some s => some { s with on_connected := callback }

/-- `rws_socket_set_on_disconnected` (lines 362-369). -/
def rws_socket_set_on_disconnected (socket : rws_socket) (callback : Option Nat) : rws_socket :=
  match socket with
  | none => none
  | some s => some { s with on_disconnected := callback }

/-- `rws_socket_set_on_received_text` (lines 371-378). -/
def rws_socket_set_on_received_text (socket : rws_socket) (callback : Option Nat) : rws_socket :=
  match socket with
  | none => none
  | some s => some { s with on_recvd_text := callback }

/-- `rws_socket_set_on_received_bin` (lines 380-387). -/
def rws_socket_set_on_received_bin (socket : rws_socket) (callback : Option Nat) : rws_socket :=
  match socket with
  | none => none
  | some s => some { s with on_recvd_bin := callback }

/-! ## Observations on the allocator journal -/

/-- How many times the handle itself was freed, i.e. how many runs of `rws_socket_delete`
reached their last line. -/
def releases (log : List Event) : Nat :=
  log.count (Event.free Obj.handle)

/-- The error records currently allocated, replayed from the journal. -/
def live_errors (log : List Event) : List rws_error :=
  log.foldl
    (fun live ev =>
      match ev with
      | Event.alloc (Obj.error e) => live ++ [e]
      | Event.free (Obj.error e) => live.erase e
      | _ => live)
    []

/-- Whether a journal entry is the allocation of an error record. -/
def is_error_alloc (ev : Event) : Bool :=
  match ev with
  | Event.alloc (Obj.error _) => true
  | _ => false

/-- A configuration call of the public API, with its arguments. -/
inductive Config
  | set_url (scheme host : Option String) (port : Int) (path : Option String)
  | set_scheme (scheme : Option String)
  | set_host (host : Option String)
  | set_path (path : Option String)
  | set_port (port : Int)
  | set_on_connected (callback : Option Nat)
  | set_on_disconnected (callback : Option Nat)
  | set_on_received_text (callback : Option Nat)
  | set_on_received_bin (callback : Option Nat)
  | set_user_object (user_object : Option Nat)
  deriving DecidableEq, Repr

/-- Performs one configuration call on a handle. -/
def Config.run (c : Config) (socket : rws_socket) : rws_socket :=
  match c with
  | Config.set_url scheme host port path => rws_socket_set_url socket scheme host port path
  | Config.set_scheme scheme => rws_socket_set_scheme socket scheme
  | Config.set_host host => rws_socket_set_host socket host
  | Config.set_path path => rws_socket_set_path socket path
  | Config.set_port port => rws_socket_set_port socket port
  | Config.set_on_connected cb => rws_socket_set_on_connected socket cb
  | Config.set_on_disconnected cb => rws_socket_set_on_disconnected socket cb
  | Config.set_on_received_text cb => rws_socket_set_on_received_text socket cb
  | Config.set_on_received_bin cb => rws_socket_set_on_received_bin socket cb
  | Config.set_user_object p => rws_socket_set_user_object socket p

/-- Performs a sequence of configuration calls, first to last. -/
def configure (cs : List Config) (socket : rws_socket) : rws_socket :=
  cs.foldl (fun h c => c.run h) socket

/-! ## Predicates used by the proofs -/

/-- Journal entries that neither free the handle nor allocate an error record. -/
def quiet (ev : Event) : Bool :=
  match ev with
  | Event.free Obj.handle => false
  | Event.alloc (Obj.error _) => false
  | _ => true

/-- The step from `s` to `t` leaves the shutdown state (`command`, `work_thread`,
`is_connected`, depth of `work_mutex`) alone and only appends quiet entries to the journal. -/
def Calm (s t : _rws_socket) : Prop :=
  t.command = s.command ∧ t.work_thread = s.work_thread ∧ t.is_connected = s.is_connected ∧
    t.work_mutex = s.work_mutex ∧
    ∃ evs : List Event, t.heap_log = s.heap_log ++ evs ∧ ∀ ev ∈ evs, quiet ev = true

/-- The state of a handle on which `rws_socket_connect` was never called: it exists,
`command` is `NONE`, it is not connected, it has no worker, its error slot is empty, and
the journal shows no release of the handle and no allocation of an error record. -/
def NeverConnected (h : rws_socket) : Prop :=
  ∃ s, h = some s ∧ s.command = rws_command.COMMAND_NONE ∧ s.is_connected = false ∧
    s.work_thread = none ∧ s.error = none ∧ releases s.heap_log = 0 ∧
    s.heap_log.filter is_error_alloc = []

/-! ## Concrete handles used as test inputs -/

/-- A handle straight out of `rws_socket_create`, with a 2-byte header buffer and a
125-byte payload buffer: never configured, never connected. -/
def handle_created : _rws_socket :=
  (rws_socket_create true 2 125).getD rws_malloc_zero

/-- A created handle whose `is_connected` flag is set although no worker is recorded. -/
def handle_connected_no_worker : _rws_socket :=
  { handle_created with is_connected := true }

/-- A connected handle with a live worker and one text frame waiting in the outbound queue. -/
def handle_connected_worker : _rws_socket :=
  { handle_created with
      work_thread := some 1, is_connected := true,
      send_frames := some [{ opcode := 1, payload := [104, 105], fin := true }] }

/-- A handle whose worker is gone and whose command is already `END`. -/
def handle_ended : _rws_socket :=
  { handle_created with command := rws_command.COMMAND_END }

/-- The handle of the spec scenario: `ws://example.com:80/` with `on_disconnected` set. -/
def handle_ws : _rws_socket :=
  ((rws_socket_set_on_disconnected
      (rws_socket_set_url (some handle_created) (some "ws") (some "example.com") 80 (some "/"))
      (some 7)).getD rws_malloc_zero)

/-- The scenario handle with `port = 0`. -/
def handle_ws_port0 : _rws_socket :=
  { handle_ws with port := 0 }

/-- The scenario handle with `port = 0` and no `on_disconnected` callback. -/
def handle_ws_port0_no_callback : _rws_socket :=
  { handle_ws with port := 0, on_disconnected := none }

/-- A worker spawn that succeeds and records the new thread in the handle. -/
def spawn_succeeds (s : _rws_socket) : Bool × _rws_socket :=
  (true, { s with work_thread := some 1 })

/-- A worker spawn that fails and leaves the handle as it was. -/
def spawn_fails (s : _rws_socket) : Bool × _rws_socket :=
  (false, s)

/-! ## Two calls through the same pointer -/

/-- A quarantining allocator: a freed block is neither reused nor overwritten, so a read
through a dangling pointer returns what the block held when it was freed. -/
def quarantine (at_free : _rws_socket) : _rws_socket :=
  at_free

/-- Two calls of `rws_socket_disconnect_and_release` in sequence through the same pointer.
When the first call has freed the handle, C leaves open what the second one reads;
`readback` is the answer of the allocator, computed from what the block held when it was
freed (the journal belongs to the allocator, not to the block, and carries over).  When
the first call has not freed the handle, the second reads the record as the first left
it. -/
def rws_socket_disconnect_and_release_twice (readback : _rws_socket → _rws_socket)
    (s : _rws_socket) : rws_socket :=
  match rws_socket_disconnect_and_release (some s) with
  | none => none
  | some t =>
    if releases s.heap_log < releases t.heap_log then
      rws_socket_disconnect_and_release (some { readback t with heap_log := t.heap_log })
    else
      rws_socket_disconnect_and_release (some t)

/-! ## Frame lemmas for the collaborators -/

theorem Calm.refl (s : _rws_socket) : Calm s s :=
  ⟨rfl, rfl, rfl, rfl, [], by simp, by simp⟩

theorem Calm.trans {s t u : _rws_socket} (h₁ : Calm s t) (h₂ : Calm t u) : Calm s u := by
  obtain ⟨a1, a2, a3, a4, e1, l1, q1⟩ := h₁
  obtain ⟨b1, b2, b3, b4, e2, l2, q2⟩ := h₂
  refine ⟨b1.trans a1, b2.trans a2, b3.trans a3, b4.trans a4, e1 ++ e2, ?_, ?_⟩
  · rw [l2, l1, List.append_assoc]
  · intro ev hev
    rcases List.mem_append.1 hev with h | h
    · exact q1 ev h
    · exact q2 ev h

theorem calm_journal (ev : Event) (hq : quiet ev = true) (s : _rws_socket) :
    Calm s (journal ev s) :=
  ⟨rfl, rfl, rfl, rfl, [ev], rfl, by simpa using hq⟩

theorem calm_close (s : _rws_socket) : Calm s (rws_socket_close s) := by
  unfold rws_socket_close
  split
  · exact ⟨rfl, rfl, rfl, rfl, [_], rfl, by simp [quiet]⟩
  · exact Calm.refl s

theorem calm_string_delete_clean (f : StringField) (s : _rws_socket) :
    Calm s (rws_string_delete_clean f s) := by
  unfold rws_string_delete_clean
  split
  · cases f <;> exact ⟨rfl, rfl, rfl, rfl, [_], rfl, by simp [quiet]⟩
  · exact Calm.refl s

theorem calm_free_clean_received (s : _rws_socket) : Calm s (rws_free_clean_received s) := by
  unfold rws_free_clean_received
  split
  · exact ⟨rfl, rfl, rfl, rfl, [_], rfl, by simp [quiet]⟩
  · exact Calm.refl s

theorem calm_delete_all_frames (list : Option (List rws_frame)) (s : _rws_socket) :
    Calm s (rws_socket_delete_all_frames_in_list list s) := by
  unfold rws_socket_delete_all_frames_in_list
  split
  · refine ⟨rfl, rfl, rfl, rfl, _, rfl, ?_⟩
    intro ev hev
    obtain ⟨f, -, rfl⟩ := List.mem_map.1 hev
    rfl
  · exact Calm.refl s

theorem calm_list_delete_clean (q : FrameList) (s : _rws_socket) :
    Calm s (rws_list_delete_clean q s) := by
  unfold rws_list_delete_clean
  split
  · cases q <;> exact ⟨rfl, rfl, rfl, rfl, [_], rfl, by simp [quiet]⟩
  · exact Calm.refl s

theorem calm_error_delete_clean (s : _rws_socket) : Calm s (rws_error_delete_clean s) := by
  unfold rws_error_delete_clean
  split
  · exact ⟨rfl, rfl, rfl, rfl, [_], rfl, by simp [quiet]⟩
  · exact Calm.refl s

theorem calm_mutex_delete (m : Mutex) (s : _rws_socket) : Calm s (rws_mutex_delete m s) :=
  calm_journal _ (by cases m <;> rfl) s

theorem calm_free (mem : Option Nat) (s : _rws_socket) : Calm s (rws_free mem s) := by
  unfold rws_free
  split
  · exact calm_journal (Event.free (Obj.buffer _)) rfl s
  · exact Calm.refl s

theorem calm_set_received_size (n : Nat) (s : _rws_socket) :
    Calm s { s with received_size := n } :=
  ⟨rfl, rfl, rfl, rfl, [], by simp, by simp⟩

theorem calm_set_received_len (n : Nat) (s : _rws_socket) :
    Calm s { s with received_len := n } :=
  ⟨rfl, rfl, rfl, rfl, [], by simp, by simp⟩

/-- Everything `rws_socket_delete` does before its last line is calm. -/
theorem rws_socket_delete_calm (s : _rws_socket) :
    ∃ t, Calm s t ∧ rws_socket_delete s = journal (Event.free Obj.handle) t := by
  refine ⟨_, ?_, rfl⟩
  refine Calm.trans ?_ (calm_free _ _)
  refine Calm.trans ?_ (calm_free _ _)
  refine Calm.trans ?_ (calm_mutex_delete _ _)
  refine Calm.trans ?_ (calm_mutex_delete _ _)
  refine Calm.trans ?_ (calm_list_delete_clean _ _)
  refine Calm.trans ?_ (calm_delete_all_frames _ _)
  refine Calm.trans ?_ (calm_list_delete_clean _ _)
  refine Calm.trans ?_ (calm_delete_all_frames _ _)
  refine Calm.trans ?_ (calm_free_clean_received _)
  refine Calm.trans ?_ (calm_error_delete_clean _)
  refine Calm.trans ?_ (calm_string_delete_clean _ _)
  refine Calm.trans ?_ (calm_string_delete_clean _ _)
  refine Calm.trans ?_ (calm_string_delete_clean _ _)
  refine Calm.trans ?_ (calm_string_delete_clean _ _)
  refine Calm.trans ?_ (calm_list_delete_clean _ _)
  refine Calm.trans ?_ (calm_delete_all_frames _ _)
  refine Calm.trans ?_ (calm_list_delete_clean _ _)
  refine Calm.trans ?_ (calm_delete_all_frames _ _)
  refine Calm.trans ?_ (calm_set_received_len _ _)
  refine Calm.trans ?_ (calm_set_received_size _ _)
  refine Calm.trans ?_ (calm_free_clean_received _)
  refine Calm.trans ?_ (calm_string_delete_clean _ _)
  exact calm_close s

theorem send_frames_journal (ev : Event) (s : _rws_socket) :
    (journal ev s).send_frames = s.send_frames := rfl

theorem send_frames_free (mem : Option Nat) (s : _rws_socket) :
    (rws_free mem s).send_frames = s.send_frames := by
  unfold rws_free; split <;> rfl

theorem send_frames_mutex_delete (m : Mutex) (s : _rws_socket) :
    (rws_mutex_delete m s).send_frames = s.send_frames := rfl

theorem send_frames_delete_all_frames (list : Option (List rws_frame)) (s : _rws_socket) :
    (rws_socket_delete_all_frames_in_list list s).send_frames = s.send_frames := by
  unfold rws_socket_delete_all_frames_in_list; split <;> rfl

theorem send_frames_list_delete_clean_send (s : _rws_socket) :
    (rws_list_delete_clean FrameList.send_frames s).send_frames = none := by
  unfold rws_list_delete_clean
  split
  · rfl
  · next h => exact h

theorem send_frames_list_delete_clean_recvd (s : _rws_socket) :
    (rws_list_delete_clean FrameList.recvd_frames s).send_frames = s.send_frames := by
  unfold rws_list_delete_clean; split <;> rfl

theorem error_journal (ev : Event) (s : _rws_socket) : (journal ev s).error = s.error := rfl

theorem error_free (mem : Option Nat) (s : _rws_socket) :
    (rws_free mem s).error = s.error := by
  unfold rws_free; split <;> rfl

theorem error_mutex_delete (m : Mutex) (s : _rws_socket) :
    (rws_mutex_delete m s).error = s.error := rfl

theorem error_delete_all_frames (list : Option (List rws_frame)) (s : _rws_socket) :
    (rws_socket_delete_all_frames_in_list list s).error = s.error := by
  unfold rws_socket_delete_all_frames_in_list; split <;> rfl

theorem error_list_delete_clean (q : FrameList) (s : _rws_socket) :
    (rws_list_delete_clean q s).error = s.error := by
  unfold rws_list_delete_clean; split
  · cases q <;> rfl
  · rfl

theorem error_free_clean_received (s : _rws_socket) :
    (rws_free_clean_received s).error = s.error := by
  unfold rws_free_clean_received; split <;> rfl

theorem error_error_delete_clean (s : _rws_socket) :
    (rws_error_delete_clean s).error = none := by
  unfold rws_error_delete_clean
  split
  · rfl
  · next h => exact h

/-- After `rws_socket_delete` the outbound queue pointer is `NULL`. -/
theorem rws_socket_delete_send_frames (s : _rws_socket) :
    (rws_socket_delete s).send_frames = none := by
  simp only [rws_socket_delete, send_frames_journal, send_frames_free, send_frames_mutex_delete,
    send_frames_delete_all_frames, send_frames_list_delete_clean_recvd,
    send_frames_list_delete_clean_send]

/-- After `rws_socket_delete` the error slot is empty. -/
theorem rws_socket_delete_error (s : _rws_socket) : (rws_socket_delete s).error = none := by
  simp only [rws_socket_delete, error_journal, error_free, error_mutex_delete,
    error_delete_all_frames, error_list_delete_clean, error_free_clean_received,
    error_error_delete_clean]

theorem releases_append (l₁ l₂ : List Event) : releases (l₁ ++ l₂) = releases l₁ + releases l₂ := by
  simp [releases]

theorem releases_quiet (evs : List Event) (h : ∀ ev ∈ evs, quiet ev = true) :
    releases evs = 0 := by
  unfold releases
  rw [List.count_eq_zero]
  intro hmem
  exact absurd (h _ hmem) (by simp [quiet])

theorem error_allocs_quiet (evs : List Event) (h : ∀ ev ∈ evs, quiet ev = true) :
    evs.filter is_error_alloc = [] := by
  rw [List.filter_eq_nil_iff]
  intro ev hev
  have hq := h ev hev
  cases ev with
  | alloc o => cases o <;> simp_all [quiet, is_error_alloc]
  | free o => simp [is_error_alloc]
  | close fd => simp [is_error_alloc]
  | sigpipe_handler => simp [is_error_alloc]

/-- What one run of `rws_socket_delete` does to the observations: shutdown state
untouched, queue and error slot cleared, the journal extended, exactly one more release,
no error record allocated. -/
theorem rws_socket_delete_spec (s : _rws_socket) :
    (rws_socket_delete s).command = s.command ∧
    (rws_socket_delete s).work_thread = s.work_thread ∧
    (rws_socket_delete s).is_connected = s.is_connected ∧
    (rws_socket_delete s).work_mutex = s.work_mutex ∧
    (rws_socket_delete s).send_frames = none ∧
    (rws_socket_delete s).error = none ∧
    s.heap_log <+: (rws_socket_delete s).heap_log ∧
    releases (rws_socket_delete s).heap_log = releases s.heap_log + 1 ∧
    (rws_socket_delete s).heap_log.filter is_error_alloc = s.heap_log.filter is_error_alloc := by
  obtain ⟨t, ⟨h1, h2, h3, h4, evs, hl, hq⟩, ht⟩ := rws_socket_delete_calm s
  refine ⟨?_, ?_, ?_, ?_, rws_socket_delete_send_frames s, rws_socket_delete_error s, ?_, ?_, ?_⟩
  · rw [ht]; exact h1
  · rw [ht]; exact h2
  · rw [ht]; exact h3
  · rw [ht]; exact h4
  · rw [ht]
    refine ⟨evs ++ [Event.free Obj.handle], ?_⟩
    simp [journal, hl]
  · rw [ht]
    simp only [journal, hl, releases_append, releases_quiet evs hq]
    simp [releases]
  · rw [ht]
    simp [journal, hl, error_allocs_quiet evs hq, is_error_alloc]

/-! ## `rws_socket_disconnect_and_release` -/

/-- What lines 82-85 (lock, drain the outbound queue, free the list) leave behind. -/
theorem disconnect_prologue (s : _rws_socket) :
    ∃ p : _rws_socket,
      rws_list_delete_clean FrameList.send_frames
        (rws_socket_delete_all_frames_in_list (rws_mutex_lock Mutex.work_mutex s).send_frames
          (rws_mutex_lock Mutex.work_mutex s)) = p ∧
      p.command = s.command ∧ p.work_thread = s.work_thread ∧
      p.is_connected = s.is_connected ∧ p.work_mutex = s.work_mutex + 1 ∧
      p.send_frames = none ∧ p.error = s.error ∧
      (s.heap_log ++ (s.send_frames.getD []).map (fun f => Event.free (Obj.frame f)))
        <+: p.heap_log ∧
      releases p.heap_log = releases s.heap_log ∧
      p.heap_log.filter is_error_alloc = s.heap_log.filter is_error_alloc := by
  refine ⟨_, rfl, ?_⟩
  cases hs : s.send_frames with
  | none =>
    simp [rws_mutex_lock, rws_socket_delete_all_frames_in_list, rws_list_delete_clean,
      FrameList.get, FrameList.set, journal, hs]
  | some frames =>
    simp [rws_mutex_lock, rws_socket_delete_all_frames_in_list, rws_list_delete_clean,
      FrameList.get, FrameList.set, journal, hs, releases, is_error_alloc,
      List.count_eq_zero, List.filter_eq_nil_iff]

/-- The four-way dispatch of lines 87-104, over the record the prologue leaves. -/
theorem disconnect_dispatch (s : _rws_socket) :
    ∃ p : _rws_socket,
      (p.command = s.command ∧ p.work_thread = s.work_thread ∧
        p.is_connected = s.is_connected ∧ p.work_mutex = s.work_mutex + 1 ∧
        p.send_frames = none ∧ p.error = s.error ∧
        (s.heap_log ++ (s.send_frames.getD []).map (fun f => Event.free (Obj.frame f)))
          <+: p.heap_log ∧
        releases p.heap_log = releases s.heap_log ∧
        p.heap_log.filter is_error_alloc = s.heap_log.filter is_error_alloc) ∧
      rws_socket_disconnect_and_release (some s) =
        if s.is_connected = true then
          some (rws_mutex_unlock Mutex.work_mutex
            { p with command := rws_command.COMMAND_DISCONNECT })
        else if s.work_thread.isSome = true then
          some (rws_mutex_unlock Mutex.work_mutex { p with command := rws_command.COMMAND_END })
        else if s.command ≠ rws_command.COMMAND_END then
          some (rws_socket_delete (rws_mutex_unlock Mutex.work_mutex p))
        else some p := by
  obtain ⟨p, hp, h⟩ := disconnect_prologue s
  refine ⟨p, h, ?_⟩
  obtain ⟨h1, h2, h3, -⟩ := h
  simp only [rws_socket_disconnect_and_release, hp, h1, h2, h3]

/-! ## `rws_socket_delete`, written out -/

theorem close_eq (s : _rws_socket) :
    rws_socket_close s =
      { s with socket := none, heap_log := s.heap_log ++ s.socket.toList.map Event.close } := by
  cases h : s.socket <;> cases s <;> simp_all [rws_socket_close, journal, RWS_INVALID_SOCKET]

theorem string_delete_clean_eq (f : StringField) (s : _rws_socket) :
    rws_string_delete_clean f s =
      { f.set none s with
        heap_log := s.heap_log ++ (f.get s).toList.map (fun x => Event.free (Obj.string x)) } := by
  cases f <;> simp only [rws_string_delete_clean, StringField.get, StringField.set, journal] <;>
    split <;> cases s <;> simp_all

theorem free_clean_received_eq (s : _rws_socket) :
    rws_free_clean_received s =
      { s with received := none,
               heap_log := s.heap_log ++
                 s.received.toList.map (fun d => Event.free (Obj.bytes d)) } := by
  cases h : s.received <;> cases s <;> simp_all [rws_free_clean_received, journal]

theorem delete_all_frames_eq (list : Option (List rws_frame)) (s : _rws_socket) :
    rws_socket_delete_all_frames_in_list list s =
      { s with heap_log := s.heap_log ++
                 (list.getD []).map (fun f => Event.free (Obj.frame f)) } := by
  cases list <;> cases s <;> simp [rws_socket_delete_all_frames_in_list]

theorem list_delete_clean_eq (q : FrameList) (s : _rws_socket) :
    rws_list_delete_clean q s =
      { q.set none s with
        heap_log := s.heap_log ++ (q.get s).toList.map (fun l => Event.free (Obj.list l)) } := by
  cases q <;> simp only [rws_list_delete_clean, FrameList.get, FrameList.set, journal] <;>
    split <;> cases s <;> simp_all

theorem error_delete_clean_eq (s : _rws_socket) :
    rws_error_delete_clean s =
      { s with error := none,
               heap_log := s.heap_log ++
                 s.error.toList.map (fun e => Event.free (Obj.error e)) } := by
  cases h : s.error <;> cases s <;> simp_all [rws_error_delete_clean, journal]

theorem free_eq (mem : Option Nat) (s : _rws_socket) :
    rws_free mem s =
      { s with heap_log := s.heap_log ++
                 mem.toList.map (fun n => Event.free (Obj.buffer n)) } := by
  cases mem <;> cases s <;> simp [rws_free, journal]

/-- The journal of one run of `rws_socket_delete`, entry by entry. -/
theorem rws_socket_delete_heap_log (s : _rws_socket) :
    (rws_socket_delete s).heap_log =
      s.heap_log ++ s.socket.toList.map Event.close ++
        s.sec_ws_accept.toList.map (fun x => Event.free (Obj.string x)) ++
        s.received.toList.map (fun d => Event.free (Obj.bytes d)) ++
        (s.send_frames.getD []).map (fun f => Event.free (Obj.frame f)) ++
        s.send_frames.toList.map (fun l => Event.free (Obj.list l)) ++
        (s.recvd_frames.getD []).map (fun f => Event.free (Obj.frame f)) ++
        s.recvd_frames.toList.map (fun l => Event.free (Obj.list l)) ++
        s.scheme.toList.map (fun x => Event.free (Obj.string x)) ++
        s.host.toList.map (fun x => Event.free (Obj.string x)) ++
        s.path.toList.map (fun x => Event.free (Obj.string x)) ++
        s.error.toList.map (fun e => Event.free (Obj.error e)) ++
        [Event.free (Obj.mutex Mutex.work_mutex), Event.free (Obj.mutex Mutex.send_mutex)] ++
        s.header_buff.toList.map (fun n => Event.free (Obj.buffer n)) ++
        s.payload_buff.toList.map (fun n => Event.free (Obj.buffer n)) ++
        [Event.free Obj.handle] := by
  simp [rws_socket_delete, close_eq, string_delete_clean_eq, free_clean_received_eq,
    delete_all_frames_eq, list_delete_clean_eq, error_delete_clean_eq, free_eq,
    rws_mutex_delete, journal, StringField.get, StringField.set, FrameList.get, FrameList.set]

/-- The release branch of `rws_socket_disconnect_and_release`, written out: the lock is
taken and given back, the outbound queue is drained, then `rws_socket_delete` runs. -/
theorem disconnect_release_branch (s : _rws_socket) (hw : s.work_thread = none)
    (hc : s.is_connected = false) (he : s.command ≠ rws_command.COMMAND_END) :
    rws_socket_disconnect_and_release (some s) =
      some (rws_socket_delete
        { s with send_frames := none,
                 heap_log := s.heap_log ++
                   (s.send_frames.getD []).map (fun f => Event.free (Obj.frame f)) ++
                   s.send_frames.toList.map (fun l => Event.free (Obj.list l)) }) := by
  cases s
  simp_all [rws_socket_disconnect_and_release, rws_mutex_lock, rws_mutex_unlock,
    delete_all_frames_eq, list_delete_clean_eq, FrameList.get, FrameList.set]


/-! ## Claims about `rws_socket_disconnect_and_release` -/

/-- C5: with a worker thread present the call does not release the handle; it sets
`command` to `DISCONNECT` when `is_connected` is true and to `END` when it is false, and
leaves `is_connected` and the worker handle as they were. -/
theorem disconnect_with_worker_sets_command (s : _rws_socket) (hw : s.work_thread ≠ none) :
    ∃ t, rws_socket_disconnect_and_release (some s) = some t ∧
      t.command = (if s.is_connected = true then rws_command.COMMAND_DISCONNECT
        else rws_command.COMMAND_END) ∧
      t.is_connected = s.is_connected ∧ t.work_thread = s.work_thread ∧
      releases t.heap_log = releases s.heap_log := by
  obtain ⟨p, ⟨h1, h2, h3, h4, h5, h6, h7, h8, h9⟩, hd⟩ := disconnect_dispatch s
  have hsome : s.work_thread.isSome = true := by
    cases hwt : s.work_thread with
    | none => exact absurd hwt hw
    | some x => rfl
  rw [hd]
  by_cases hc : s.is_connected = true
  · simp [hc, rws_mutex_unlock, h2, h3, h8]
  · simp [hc, hsome, rws_mutex_unlock, h2, h3, h8]

/-- C5, on a connected handle with a live worker and one queued frame. -/
theorem disconnect_with_worker_sets_command_witness :
    handle_connected_worker.work_thread ≠ none ∧
    ∃ t, rws_socket_disconnect_and_release (some handle_connected_worker) = some t ∧
      t.command = (if handle_connected_worker.is_connected = true
        then rws_command.COMMAND_DISCONNECT else rws_command.COMMAND_END) ∧
      t.is_connected = handle_connected_worker.is_connected ∧
      t.work_thread = handle_connected_worker.work_thread ∧
      releases t.heap_log = releases handle_connected_worker.heap_log :=
  ⟨by simp [handle_connected_worker],
   disconnect_with_worker_sets_command handle_connected_worker
     (by simp [handle_connected_worker])⟩

/-- C8: whatever branch is taken, the call returns with the outbound queue pointer `NULL`,
and the first thing it journals is the free of every frame that was queued at entry, in
queue order. -/
theorem disconnect_drains_outbound_queue (s : _rws_socket) :
    ∃ t, rws_socket_disconnect_and_release (some s) = some t ∧ t.send_frames = none ∧
      (s.heap_log ++ (s.send_frames.getD []).map (fun f => Event.free (Obj.frame f)))
        <+: t.heap_log := by
  obtain ⟨p, ⟨h1, h2, h3, h4, h5, h6, h7, h8, h9⟩, hd⟩ := disconnect_dispatch s
  rw [hd]
  by_cases hc : s.is_connected = true
  · simp [hc, rws_mutex_unlock, h5, h7]
  · by_cases hw : s.work_thread.isSome = true
    · simp [hc, hw, rws_mutex_unlock, h5, h7]
    · by_cases he : s.command = rws_command.COMMAND_END
      · simp [hc, hw, he, h5, h7]
      · simp only [hc, hw, he, if_false, ne_eq, not_false_eq_true, if_true]
        refine ⟨_, rfl, (rws_socket_delete_spec _).2.2.2.2.1, ?_⟩
        exact List.IsPrefix.trans h7
          (rws_socket_delete_spec (rws_mutex_unlock Mutex.work_mutex p)).2.2.2.2.2.2.1

/-- C4 (refuted as stated): a handle with no worker and `command = NONE` whose
`is_connected` flag is true is not released; the call only sets `command` to `DISCONNECT`. -/
theorem disconnect_connected_no_worker_not_released :
    handle_connected_no_worker.work_thread = none ∧
    handle_connected_no_worker.command ≠ rws_command.COMMAND_END ∧
    (rws_socket_disconnect_and_release (some handle_connected_no_worker)).map
        (fun t => (t.command, releases t.heap_log)) =
      some (rws_command.COMMAND_DISCONNECT, 0) := by
  refine ⟨rfl, by decide, ?_⟩
  rfl

/-- C4 (amended): on a handle with no worker thread, `is_connected` false and
`command != END`, the call gives the shutdown lock back (its depth is what it was at entry)
and runs the whole of `rws_socket_delete` before returning.  The journal of the call is
exactly: every queued outbound frame and the outbound list, the transport close, the
accept token, the received-byte accumulator, every inbound frame and the inbound list,
scheme, host and path, the stored error, both locks, both scratch buffers and, last, the
handle itself; so exactly one more release is journalled. -/
theorem disconnect_no_worker_synchronous_release (s : _rws_socket)
    (hw : s.work_thread = none) (hc : s.is_connected = false)
    (he : s.command ≠ rws_command.COMMAND_END) :
    ∃ t, rws_socket_disconnect_and_release (some s) = some t ∧
      t.work_mutex = s.work_mutex ∧
      releases t.heap_log = releases s.heap_log + 1 ∧
      t.heap_log.getLast? = some (Event.free Obj.handle) ∧
      t.heap_log =
        s.heap_log ++
          (s.send_frames.getD []).map (fun f => Event.free (Obj.frame f)) ++
          s.send_frames.toList.map (fun l => Event.free (Obj.list l)) ++
          s.socket.toList.map Event.close ++
          s.sec_ws_accept.toList.map (fun x => Event.free (Obj.string x)) ++
          s.received.toList.map (fun d => Event.free (Obj.bytes d)) ++
          (s.recvd_frames.getD []).map (fun f => Event.free (Obj.frame f)) ++
          s.recvd_frames.toList.map (fun l => Event.free (Obj.list l)) ++
          s.scheme.toList.map (fun x => Event.free (Obj.string x)) ++
          s.host.toList.map (fun x => Event.free (Obj.string x)) ++
          s.path.toList.map (fun x => Event.free (Obj.string x)) ++
          s.error.toList.map (fun e => Event.free (Obj.error e)) ++
          [Event.free (Obj.mutex Mutex.work_mutex), Event.free (Obj.mutex Mutex.send_mutex)] ++
          s.header_buff.toList.map (fun n => Event.free (Obj.buffer n)) ++
          s.payload_buff.toList.map (fun n => Event.free (Obj.buffer n)) ++
          [Event.free Obj.handle] := by
  have hlog := rws_socket_delete_heap_log
    { s with send_frames := none,
             heap_log := s.heap_log ++
               (s.send_frames.getD []).map (fun f => Event.free (Obj.frame f)) ++
               s.send_frames.toList.map (fun l => Event.free (Obj.list l)) }
  have hsp := rws_socket_delete_spec
    { s with send_frames := none,
             heap_log := s.heap_log ++
               (s.send_frames.getD []).map (fun f => Event.free (Obj.frame f)) ++
               s.send_frames.toList.map (fun l => Event.free (Obj.list l)) }
  refine ⟨_, disconnect_release_branch s hw hc he, hsp.2.2.2.1, ?_, ?_, ?_⟩
  · rw [hsp.2.2.2.2.2.2.2.1]
    simp [releases, List.count_eq_zero]
  · obtain ⟨t, -, ht⟩ := rws_socket_delete_calm
      { s with send_frames := none,
               heap_log := s.heap_log ++
                 (s.send_frames.getD []).map (fun f => Event.free (Obj.frame f)) ++
                 s.send_frames.toList.map (fun l => Event.free (Obj.list l)) }
    rw [ht]
    simp [journal]
  · rw [hlog]
    simp

/-- C4 (amended), on the scenario handle `ws://example.com:80/`, never connected: the
journal of the call ends with the three strings, both locks, both buffers and the handle. -/
theorem disconnect_no_worker_synchronous_release_witness :
    ∃ t, rws_socket_disconnect_and_release (some handle_ws) = some t ∧
      t.work_mutex = handle_ws.work_mutex ∧
      releases t.heap_log = releases handle_ws.heap_log + 1 ∧
      t.heap_log.getLast? = some (Event.free Obj.handle) ∧
      t.heap_log =
        handle_ws.heap_log ++
          [Event.free (Obj.string "ws"), Event.free (Obj.string "example.com"),
           Event.free (Obj.string "/"),
           Event.free (Obj.mutex Mutex.work_mutex), Event.free (Obj.mutex Mutex.send_mutex),
           Event.free (Obj.buffer 2), Event.free (Obj.buffer 125),
           Event.free Obj.handle] :=
  disconnect_no_worker_synchronous_release handle_ws rfl rfl (by decide)

/-- C10 (the code breaks it): on any record with `is_connected` false, no worker and
`command == END` the call returns with `work_mutex` one level deeper than at entry: the
lock taken on line 82 is never given back on that path. -/
theorem disconnect_ended_handle_keeps_lock (s : _rws_socket) :
    ∃ t, rws_socket_disconnect_and_release
        (some { s with is_connected := false, work_thread := none,
                       command := rws_command.COMMAND_END }) = some t ∧
      t.work_mutex = s.work_mutex + 1 ∧ releases t.heap_log = releases s.heap_log := by
  obtain ⟨p, ⟨h1, h2, h3, h4, h5, h6, h7, h8, h9⟩, hd⟩ :=
    disconnect_dispatch { s with is_connected := false, work_thread := none,
                                 command := rws_command.COMMAND_END }
  rw [hd]
  exact ⟨p, by simp, h4, h8⟩

theorem disconnect_ended_iterate (n : Nat) (s : _rws_socket) (hw : s.work_thread = none)
    (hc : s.is_connected = false) (he : s.command = rws_command.COMMAND_END) :
    ∃ t, Nat.iterate rws_socket_disconnect_and_release n (some s) = some t ∧
      releases t.heap_log = releases s.heap_log ∧
      t.command = rws_command.COMMAND_END ∧ t.work_thread = none ∧
      t.is_connected = false := by
  induction n generalizing s with
  | zero => exact ⟨s, rfl, rfl, he, hw, hc⟩
  | succ n ih =>
    obtain ⟨p, ⟨h1, h2, h3, h4, h5, h6, h7, h8, h9⟩, hd⟩ := disconnect_dispatch s
    have hstep : rws_socket_disconnect_and_release (some s) = some p := by
      rw [hd]; simp [hc, hw, he]
    obtain ⟨t, ht, k1, k2, k3, k4⟩ := ih p (h2.trans hw) (h3.trans hc) (h1.trans he)
    refine ⟨t, ?_, k1.trans h8, k2, k3, k4⟩
    rw [Function.iterate_succ_apply, hstep]
    exact ht

/-- C1 (refuted as stated): two calls in sequence on a freshly created handle (no worker,
not connected, `command = NONE`), under an allocator that quarantines freed blocks, reach
the last line of `rws_socket_delete` twice: the release does not write `command`, so the
second call reads the block as the first one left it and takes the release branch again. -/
theorem disconnect_twice_releases_twice :
    handle_created.work_thread = none ∧ handle_created.is_connected = false ∧
    handle_created.command ≠ rws_command.COMMAND_END ∧
    releases handle_created.heap_log = 0 ∧
    (rws_socket_disconnect_and_release (some handle_created)).map
      (fun t => releases t.heap_log) = some 1 ∧
    (rws_socket_disconnect_and_release_twice quarantine handle_created).map
      (fun t => releases t.heap_log) = some 2 := by
  refine ⟨rfl, rfl, by decide, by decide, ?_, ?_⟩
  · rfl
  · rfl

/-- C1 (amended): on a handle with no worker thread and `is_connected` false, one call
runs the release exactly once when `command != END`, and the handle is freed when the call
returns (the last journal entry is its free); when `command == END` the call releases
nothing and leaves the handle ended, with no worker and not connected, for any number of
calls in sequence. -/
theorem disconnect_release_once_or_noop (s : _rws_socket)
    (hw : s.work_thread = none) (hc : s.is_connected = false) :
    (s.command ≠ rws_command.COMMAND_END →
      ∃ t, rws_socket_disconnect_and_release (some s) = some t ∧
        releases t.heap_log = releases s.heap_log + 1 ∧
        t.heap_log.getLast? = some (Event.free Obj.handle)) ∧
    (s.command = rws_command.COMMAND_END →
      ∀ n : Nat, ∃ t, Nat.iterate rws_socket_disconnect_and_release n (some s) = some t ∧
        releases t.heap_log = releases s.heap_log ∧
        t.command = rws_command.COMMAND_END ∧ t.work_thread = none ∧
        t.is_connected = false) := by
  constructor
  · intro he
    obtain ⟨p, ⟨h1, h2, h3, h4, h5, h6, h7, h8, h9⟩, hd⟩ := disconnect_dispatch s
    rw [hd]
    simp only [hc, hw, he, Option.isSome_none, Bool.false_eq_true, if_false, ne_eq,
      not_false_eq_true, if_true]
    have hs := rws_socket_delete_spec (rws_mutex_unlock Mutex.work_mutex p)
    refine ⟨_, rfl, ?_, ?_⟩
    · rw [hs.2.2.2.2.2.2.2.1]; simp [rws_mutex_unlock, h8]
    · obtain ⟨t, -, ht⟩ := rws_socket_delete_calm (rws_mutex_unlock Mutex.work_mutex p)
      rw [ht]
      simp [journal]
  · intro he n
    exact disconnect_ended_iterate n s hw hc he

/-- C1 (amended), on a freshly created handle (one call) and on an ended one (five calls
in sequence). -/
theorem disconnect_release_once_or_noop_witness :
    (∃ t, rws_socket_disconnect_and_release (some handle_created) = some t ∧
        releases t.heap_log = releases handle_created.heap_log + 1 ∧
        t.heap_log.getLast? = some (Event.free Obj.handle)) ∧
    (∃ t, Nat.iterate rws_socket_disconnect_and_release 5 (some handle_ended) = some t ∧
        releases t.heap_log = releases handle_ended.heap_log ∧
        t.command = rws_command.COMMAND_END ∧ t.work_thread = none ∧
        t.is_connected = false) :=
  ⟨(disconnect_release_once_or_noop handle_created rfl rfl).1 (by decide),
   (disconnect_release_once_or_noop handle_ended rfl rfl).2 rfl 5⟩

/-! ## `rws_socket_connect` -/

theorem params_error_msg_error_delete_clean (s : _rws_socket) :
    params_error_msg (rws_error_delete_clean s) = params_error_msg s := by
  unfold rws_error_delete_clean
  split <;> rfl

/-- The failing path of `rws_socket_connect`, written out: the worker spawn does not
occur in the result. -/
theorem connect_of_msg (start : _rws_socket → Bool × _rws_socket) (s : _rws_socket)
    (descr : String) (h : params_error_msg s = some descr) :
    rws_socket_connect start (some s) =
      (false, some
        { journal (Event.alloc (Obj.error
              { code := rws_error_code.rws_error_code_missed_parameter,
                description := descr }))
            { rws_error_delete_clean s with received_len := 0 } with
          error := some { code := rws_error_code.rws_error_code_missed_parameter,
                          description := descr } }) := by
  simp only [rws_socket_connect, params_error_msg_error_delete_clean, h,
    rws_error_new_code_descr]

/-- The passing path of `rws_socket_connect`, written out. -/
theorem connect_of_no_msg (start : _rws_socket → Bool × _rws_socket) (s : _rws_socket)
    (h : params_error_msg s = none) :
    rws_socket_connect start (some s) =
      ((start { rws_error_delete_clean s with received_len := 0 }).1,
       some (start { rws_error_delete_clean s with received_len := 0 }).2) := by
  simp only [rws_socket_connect, params_error_msg_error_delete_clean, h]

/-- C3: when exactly one of the five required fields is missing, `rws_socket_connect`
returns false and the error slot holds a `rws_error_code_missed_parameter` error whose
description names that field. -/
theorem connect_single_missing_field (start : _rws_socket → Bool × _rws_socket)
    (s : _rws_socket) :
    (s.port ≤ 0 → s.scheme ≠ none → s.host ≠ none → s.path ≠ none →
        s.on_disconnected ≠ none →
      (rws_socket_connect start (some s)).1 = false ∧
      rws_socket_get_error (rws_socket_connect start (some s)).2 =
        some { code := rws_error_code.rws_error_code_missed_parameter,
               description := "No URL port provided" }) ∧
    (0 < s.port → s.scheme = none → s.host ≠ none → s.path ≠ none →
        s.on_disconnected ≠ none →
      (rws_socket_connect start (some s)).1 = false ∧
      rws_socket_get_error (rws_socket_connect start (some s)).2 =
        some { code := rws_error_code.rws_error_code_missed_parameter,
               description := "No URL scheme provided" }) ∧
    (0 < s.port → s.scheme ≠ none → s.host = none → s.path ≠ none →
        s.on_disconnected ≠ none →
      (rws_socket_connect start (some s)).1 = false ∧
      rws_socket_get_error (rws_socket_connect start (some s)).2 =
        some { code := rws_error_code.rws_error_code_missed_parameter,
               description := "No URL host provided" }) ∧
    (0 < s.port → s.scheme ≠ none → s.host ≠ none → s.path = none →
        s.on_disconnected ≠ none →
      (rws_socket_connect start (some s)).1 = false ∧
      rws_socket_get_error (rws_socket_connect start (some s)).2 =
        some { code := rws_error_code.rws_error_code_missed_parameter,
               description := "No URL path provided" }) ∧
    (0 < s.port → s.scheme ≠ none → s.host ≠ none → s.path ≠ none →
        s.on_disconnected = none →
      (rws_socket_connect start (some s)).1 = false ∧
      rws_socket_get_error (rws_socket_connect start (some s)).2 =
        some { code := rws_error_code.rws_error_code_missed_parameter,
               description := "No on_disconnected callback provided" }) := by
  refine ⟨?_, ?_, ?_, ?_, ?_⟩
  · intro hp hs hh hpa hcb
    have hm : params_error_msg s = some "No URL port provided" := by
      simp [params_error_msg, hp, hs, hh, hpa, hcb, Option.isNone_iff_eq_none]
    rw [connect_of_msg start s _ hm]
    exact ⟨rfl, rfl⟩
  · intro hp hs hh hpa hcb
    have hm : params_error_msg s = some "No URL scheme provided" := by
      simp [params_error_msg, hs, hh, hpa, hcb, Option.isNone_iff_eq_none]
    rw [connect_of_msg start s _ hm]
    exact ⟨rfl, rfl⟩
  · intro hp hs hh hpa hcb
    have hm : params_error_msg s = some "No URL host provided" := by
      simp [params_error_msg, hh, hpa, hcb, Option.isNone_iff_eq_none]
    rw [connect_of_msg start s _ hm]
    exact ⟨rfl, rfl⟩
  · intro hp hs hh hpa hcb
    have hm : params_error_msg s = some "No URL path provided" := by
      simp [params_error_msg, hpa, hcb, Option.isNone_iff_eq_none]
    rw [connect_of_msg start s _ hm]
    exact ⟨rfl, rfl⟩
  · intro hp hs hh hpa hcb
    have hm : params_error_msg s = some "No on_disconnected callback provided" := by
      simp [params_error_msg, hcb]
    rw [connect_of_msg start s _ hm]
    exact ⟨rfl, rfl⟩

/-- C3, on the scenario handle with `port = 0`. -/
theorem connect_single_missing_field_witness :
    (rws_socket_connect spawn_succeeds (some handle_ws_port0)).1 = false ∧
    rws_socket_get_error (rws_socket_connect spawn_succeeds (some handle_ws_port0)).2 =
      some { code := rws_error_code.rws_error_code_missed_parameter,
             description := "No URL port provided" } :=
  (connect_single_missing_field spawn_succeeds handle_ws_port0).1
    (by decide) (by decide) (by decide) (by decide) (by decide)

/-- C2 (refuted as stated): with `port = 0` and no `on_disconnected` callback, the stored
description is the callback message, not the port message. -/
theorem connect_reports_callback_not_port :
    handle_ws_port0_no_callback.port ≤ 0 ∧
    handle_ws_port0_no_callback.on_disconnected = none ∧
    (rws_socket_connect spawn_succeeds (some handle_ws_port0_no_callback)).1 = false ∧
    (rws_socket_get_error
        (rws_socket_connect spawn_succeeds (some handle_ws_port0_no_callback)).2).map
      (fun e => e.description) = some "No on_disconnected callback provided" ∧
    (rws_socket_get_error
        (rws_socket_connect spawn_succeeds (some handle_ws_port0_no_callback)).2).map
      (fun e => e.description) ≠ some "No URL port provided" := by
  refine ⟨by decide, rfl, rfl, rfl, ?_⟩
  decide

/-- C2 (amended): the five checks run in the order port, scheme, host, path,
on_disconnected and the last failing one wins: whenever a condition fails and every
condition after it in that order holds, `rws_socket_connect` returns false and the stored
description is the message of that condition, whatever the earlier conditions are. -/
theorem connect_last_failing_condition_wins (start : _rws_socket → Bool × _rws_socket)
    (s : _rws_socket) :
    (s.on_disconnected = none →
      (rws_socket_connect start (some s)).1 = false ∧
      (rws_socket_get_error (rws_socket_connect start (some s)).2).map
        (fun e => e.description) = some "No on_disconnected callback provided") ∧
    (s.path = none → s.on_disconnected ≠ none →
      (rws_socket_connect start (some s)).1 = false ∧
      (rws_socket_get_error (rws_socket_connect start (some s)).2).map
        (fun e => e.description) = some "No URL path provided") ∧
    (s.host = none → s.path ≠ none → s.on_disconnected ≠ none →
      (rws_socket_connect start (some s)).1 = false ∧
      (rws_socket_get_error (rws_socket_connect start (some s)).2).map
        (fun e => e.description) = some "No URL host provided") ∧
    (s.scheme = none → s.host ≠ none → s.path ≠ none → s.on_disconnected ≠ none →
      (rws_socket_connect start (some s)).1 = false ∧
      (rws_socket_get_error (rws_socket_connect start (some s)).2).map
        (fun e => e.description) = some "No URL scheme provided") ∧
    (s.port ≤ 0 → s.scheme ≠ none → s.host ≠ none → s.path ≠ none →
        s.on_disconnected ≠ none →
      (rws_socket_connect start (some s)).1 = false ∧
      (rws_socket_get_error (rws_socket_connect start (some s)).2).map
        (fun e => e.description) = some "No URL port provided") := by
  refine ⟨?_, ?_, ?_, ?_, ?_⟩
  · intro hcb
    have hm : params_error_msg s = some "No on_disconnected callback provided" := by
      simp [params_error_msg, hcb]
    rw [connect_of_msg start s _ hm]
    exact ⟨rfl, rfl⟩
  · intro hpa hcb
    have hm : params_error_msg s = some "No URL path provided" := by
      simp [params_error_msg, hpa, hcb, Option.isNone_iff_eq_none]
    rw [connect_of_msg start s _ hm]
    exact ⟨rfl, rfl⟩
  · intro hh hpa hcb
    have hm : params_error_msg s = some "No URL host provided" := by
      simp [params_error_msg, hh, hpa, hcb, Option.isNone_iff_eq_none]
    rw [connect_of_msg start s _ hm]
    exact ⟨rfl, rfl⟩
  · intro hs hh hpa hcb
    have hm : params_error_msg s = some "No URL scheme provided" := by
      simp [params_error_msg, hs, hh, hpa, hcb, Option.isNone_iff_eq_none]
    rw [connect_of_msg start s _ hm]
    exact ⟨rfl, rfl⟩
  · intro hp hs hh hpa hcb
    have hm : params_error_msg s = some "No URL port provided" := by
      simp [params_error_msg, hp, hs, hh, hpa, hcb, Option.isNone_iff_eq_none]
    rw [connect_of_msg start s _ hm]
    exact ⟨rfl, rfl⟩

/-- C2 (amended), on the scenario handle with `port = 0` and no callback: two conditions
fail and the later one is reported. -/
theorem connect_last_failing_condition_wins_witness :
    handle_ws_port0_no_callback.port ≤ 0 ∧
    handle_ws_port0_no_callback.on_disconnected = none ∧
    (rws_socket_connect spawn_fails (some handle_ws_port0_no_callback)).1 = false ∧
    (rws_socket_get_error
        (rws_socket_connect spawn_fails (some handle_ws_port0_no_callback)).2).map
      (fun e => e.description) = some "No on_disconnected callback provided" :=
  ⟨by decide, rfl,
   (connect_last_failing_condition_wins spawn_fails handle_ws_port0_no_callback).1 rfl⟩

theorem params_error_msg_of_fail (s : _rws_socket)
    (hfail : s.port ≤ 0 ∨ s.scheme = none ∨ s.host = none ∨ s.path = none ∨
      s.on_disconnected = none) :
    ∃ descr, params_error_msg s = some descr := by
  unfold params_error_msg
  simp only [Option.isNone_iff_eq_none]
  by_cases h5 : s.on_disconnected = none
  · exact ⟨_, if_pos h5⟩
  · by_cases h4 : s.path = none
    · exact ⟨_, by rw [if_neg h5, if_pos h4]⟩
    · by_cases h3 : s.host = none
      · exact ⟨_, by rw [if_neg h5, if_neg h4, if_pos h3]⟩
      · by_cases h2 : s.scheme = none
        · exact ⟨_, by rw [if_neg h5, if_neg h4, if_neg h3, if_pos h2]⟩
        · have h1 : s.port ≤ 0 := by
            rcases hfail with h | h | h | h | h
            · exact h
            · exact absurd h h2
            · exact absurd h h3
            · exact absurd h h4
            · exact absurd h h5
          exact ⟨_, by rw [if_neg h5, if_neg h4, if_neg h3, if_neg h2, if_pos h1]⟩

theorem live_errors_append (l₁ l₂ : List Event) :
    live_errors (l₁ ++ l₂) =
      l₂.foldl
        (fun live ev =>
          match ev with
          | Event.alloc (Obj.error e) => live ++ [e]
          | Event.free (Obj.error e) => live.erase e
          | _ => live)
        (live_errors l₁) := by
  simp [live_errors, List.foldl_append]

/-- One failing `rws_socket_connect`, started with a journal that agrees with the error
slot: the old error is freed, one new error is live and stored, the checks will fail
again, and the worker spawn plays no part. -/
theorem connect_failure_step (s : _rws_socket) (descr : String)
    (hm : params_error_msg s = some descr)
    (hlive : live_errors s.heap_log = s.error.toList) :
    ∃ t, (∀ spawn, rws_socket_connect spawn (some s) = (false, some t)) ∧
      t.work_thread = s.work_thread ∧ t.command = s.command ∧
      t.error = some { code := rws_error_code.rws_error_code_missed_parameter,
                       description := descr } ∧
      t.heap_log = s.heap_log ++ s.error.toList.map (fun e0 => Event.free (Obj.error e0)) ++
        [Event.alloc (Obj.error { code := rws_error_code.rws_error_code_missed_parameter,
                                  description := descr })] ∧
      live_errors t.heap_log = [{ code := rws_error_code.rws_error_code_missed_parameter,
                                  description := descr }] ∧
      params_error_msg t = some descr := by
  refine ⟨_, fun spawn => connect_of_msg spawn s descr hm, ?_⟩
  cases he : s.error with
  | none =>
    rw [he] at hlive
    refine ⟨?_, ?_, rfl, ?_, ?_, ?_⟩
    · simp [rws_error_delete_clean, he, journal]
    · simp [rws_error_delete_clean, he, journal]
    · simp [rws_error_delete_clean, he, journal]
    · simp [rws_error_delete_clean, he, journal, live_errors_append, hlive]
    · rw [← hm]; simp [rws_error_delete_clean, he, journal, params_error_msg]
  | some e0 =>
    rw [he] at hlive
    refine ⟨?_, ?_, rfl, ?_, ?_, ?_⟩
    · simp [rws_error_delete_clean, he, journal]
    · simp [rws_error_delete_clean, he, journal]
    · simp [rws_error_delete_clean, he, journal]
    · simp [rws_error_delete_clean, he, journal, live_errors_append, hlive]
    · rw [← hm]; simp [rws_error_delete_clean, he, journal, params_error_msg]

/-- C6: when a pre-flight condition fails, `rws_socket_connect` returns false whatever the
worker spawn would do (it is not invoked), leaves `work_thread` and `command` alone, frees
the error that was in the slot and stores one new `rws_error_code_missed_parameter` error,
so that exactly one error record is live; the same holds after a second failing call. -/
theorem connect_failure_single_slot (s : _rws_socket)
    (hfail : s.port ≤ 0 ∨ s.scheme = none ∨ s.host = none ∨ s.path = none ∨
      s.on_disconnected = none)
    (hlive : live_errors s.heap_log = s.error.toList) :
    ∃ t e, (∀ spawn, rws_socket_connect spawn (some s) = (false, some t)) ∧
      t.work_thread = s.work_thread ∧ t.command = s.command ∧
      e.code = rws_error_code.rws_error_code_missed_parameter ∧
      t.error = some e ∧
      t.heap_log = s.heap_log ++ s.error.toList.map (fun e0 => Event.free (Obj.error e0)) ++
        [Event.alloc (Obj.error e)] ∧
      live_errors t.heap_log = [e] ∧
      ∃ u e2, (∀ spawn, rws_socket_connect spawn (some t) = (false, some u)) ∧
        u.work_thread = s.work_thread ∧ u.command = s.command ∧
        e2.code = rws_error_code.rws_error_code_missed_parameter ∧
        u.error = some e2 ∧
        u.heap_log = t.heap_log ++ [Event.free (Obj.error e), Event.alloc (Obj.error e2)] ∧
        live_errors u.heap_log = [e2] := by
  obtain ⟨descr, hm⟩ := params_error_msg_of_fail s hfail
  obtain ⟨t, ht, a1, a2, a3, a4, a5, a6⟩ := connect_failure_step s descr hm hlive
  obtain ⟨u, hu, b1, b2, b3, b4, b5, -⟩ :=
    connect_failure_step t descr a6 (by rw [a5, a3]; rfl)
  refine ⟨t, _, ht, a1, a2, rfl, a3, a4, a5, u, _, hu, b1.trans a1, b2.trans a2, rfl, b3, ?_, b5⟩
  rw [b4, a3]
  simp

/-- C6, on a freshly created handle (port still -1, nothing configured). -/
theorem connect_failure_single_slot_witness :
    ∃ t e, (∀ spawn, rws_socket_connect spawn (some handle_created) = (false, some t)) ∧
      t.work_thread = handle_created.work_thread ∧ t.command = handle_created.command ∧
      e.code = rws_error_code.rws_error_code_missed_parameter ∧
      t.error = some e ∧
      t.heap_log = handle_created.heap_log ++
        handle_created.error.toList.map (fun e0 => Event.free (Obj.error e0)) ++
        [Event.alloc (Obj.error e)] ∧
      live_errors t.heap_log = [e] ∧
      ∃ u e2, (∀ spawn, rws_socket_connect spawn (some t) = (false, some u)) ∧
        u.work_thread = handle_created.work_thread ∧ u.command = handle_created.command ∧
        e2.code = rws_error_code.rws_error_code_missed_parameter ∧
        u.error = some e2 ∧
        u.heap_log = t.heap_log ++ [Event.free (Obj.error e), Event.alloc (Obj.error e2)] ∧
        live_errors u.heap_log = [e2] :=
  connect_failure_single_slot handle_created (Or.inl (by decide)) rfl

/-- C7: with `port > 0` and scheme, host, path and `on_disconnected` all present,
`rws_socket_connect` passes the record to the worker spawn with the error slot empty and
`received_len = 0`, and returns exactly what the spawn returns (true when it succeeds). -/
theorem connect_valid_returns_spawn (start : _rws_socket → Bool × _rws_socket)
    (s : _rws_socket) (hp : 0 < s.port) (hs : s.scheme ≠ none) (hh : s.host ≠ none)
    (hpa : s.path ≠ none) (hcb : s.on_disconnected ≠ none) :
    ({ rws_error_delete_clean s with received_len := 0 } : _rws_socket).error = none ∧
    ({ rws_error_delete_clean s with received_len := 0 } : _rws_socket).received_len = 0 ∧
    rws_socket_connect start (some s) =
      ((start { rws_error_delete_clean s with received_len := 0 }).1,
       some (start { rws_error_delete_clean s with received_len := 0 }).2) ∧
    ((start { rws_error_delete_clean s with received_len := 0 }).1 = true →
      (rws_socket_connect start (some s)).1 = true) := by
  have hm : params_error_msg s = none := by
    simp [params_error_msg, hp, hs, hh, hpa, hcb, Option.isNone_iff_eq_none]
  refine ⟨error_error_delete_clean s, rfl, connect_of_no_msg start s hm, ?_⟩
  intro h
  rw [connect_of_no_msg start s hm]
  exact h

/-- C7, on the spec scenario `ws://example.com:80/` with `on_disconnected` set and a spawn
that succeeds: `rws_socket_connect` returns true. -/
theorem connect_valid_returns_spawn_witness :
    handle_ws.scheme = some "ws" ∧ handle_ws.host = some "example.com" ∧
    handle_ws.port = 80 ∧ handle_ws.path = some "/" ∧
    (rws_socket_connect spawn_succeeds (some handle_ws)).1 = true :=
  ⟨rfl, rfl, rfl, rfl,
   (connect_valid_returns_spawn spawn_succeeds handle_ws (by decide) (by decide) (by decide)
      (by decide) (by decide)).2.2.2 rfl⟩

/-! ## Creation and configuration -/

theorem string_delete_frame (str : Option String) (s : _rws_socket) :
    (rws_string_delete str s).command = s.command ∧
    (rws_string_delete str s).is_connected = s.is_connected ∧
    (rws_string_delete str s).work_thread = s.work_thread ∧
    (rws_string_delete str s).error = s.error ∧
    releases (rws_string_delete str s).heap_log = releases s.heap_log ∧
    (rws_string_delete str s).heap_log.filter is_error_alloc =
      s.heap_log.filter is_error_alloc := by
  cases str <;> simp [rws_string_delete, journal, releases, is_error_alloc]

theorem string_copy_frame (str : Option String) (s : _rws_socket) :
    (rws_string_copy str s).2.command = s.command ∧
    (rws_string_copy str s).2.is_connected = s.is_connected ∧
    (rws_string_copy str s).2.work_thread = s.work_thread ∧
    (rws_string_copy str s).2.error = s.error ∧
    releases (rws_string_copy str s).2.heap_log = releases s.heap_log ∧
    (rws_string_copy str s).2.heap_log.filter is_error_alloc =
      s.heap_log.filter is_error_alloc := by
  cases str <;> simp [rws_string_copy, journal, releases, is_error_alloc]

theorem string_set_frame (f : StringField) (v : Option String) (s : _rws_socket) :
    (f.set v s).command = s.command ∧ (f.set v s).is_connected = s.is_connected ∧
    (f.set v s).work_thread = s.work_thread ∧ (f.set v s).error = s.error ∧
    (f.set v s).heap_log = s.heap_log := by
  cases f <;> simp [StringField.set]

/-- One configuration call on a non-null handle returns the handle with `command`,
`is_connected`, the worker slot and the error slot as they were, and journals neither a
release of the handle nor an error allocation. -/
theorem config_run_frame (c : Config) (s : _rws_socket) :
    ∃ t, c.run (some s) = some t ∧ t.command = s.command ∧
      t.is_connected = s.is_connected ∧ t.work_thread = s.work_thread ∧
      t.error = s.error ∧ releases t.heap_log = releases s.heap_log ∧
      t.heap_log.filter is_error_alloc = s.heap_log.filter is_error_alloc := by
  cases c with
  | set_url scheme host port path =>
    refine ⟨_, rfl, ?_⟩
    simp only [string_set_frame, string_copy_frame, string_delete_frame, and_self]
  | set_scheme scheme =>
    refine ⟨_, rfl, ?_⟩
    simp only [string_set_frame, string_copy_frame, string_delete_frame, and_self]
  | set_host host =>
    refine ⟨_, rfl, ?_⟩
    simp only [string_set_frame, string_copy_frame, string_delete_frame, and_self]
  | set_path path =>
    refine ⟨_, rfl, ?_⟩
    simp only [string_set_frame, string_copy_frame, string_delete_frame, and_self]
  | set_port port => exact ⟨_, rfl, rfl, rfl, rfl, rfl, rfl, rfl⟩
  | set_on_connected cb => exact ⟨_, rfl, rfl, rfl, rfl, rfl, rfl, rfl⟩
  | set_on_disconnected cb => exact ⟨_, rfl, rfl, rfl, rfl, rfl, rfl, rfl⟩
  | set_on_received_text cb => exact ⟨_, rfl, rfl, rfl, rfl, rfl, rfl, rfl⟩
  | set_on_received_bin cb => exact ⟨_, rfl, rfl, rfl, rfl, rfl, rfl, rfl⟩
  | set_user_object p => exact ⟨_, rfl, rfl, rfl, rfl, rfl, rfl, rfl⟩

theorem never_connected_run (c : Config) (h : rws_socket) (hn : NeverConnected h) :
    NeverConnected (c.run h) := by
  obtain ⟨s, rfl, h1, h2, h3, h4, h5, h6⟩ := hn
  obtain ⟨t, ht, k1, k2, k3, k4, k5, k6⟩ := config_run_frame c s
  exact ⟨t, ht, k1.trans h1, k2.trans h2, k3.trans h3, k4.trans h4, k5.trans h5, k6.trans h6⟩

theorem never_connected_configure (cs : List Config) (h : rws_socket) (hn : NeverConnected h) :
    NeverConnected (configure cs h) := by
  induction cs generalizing h with
  | nil => exact hn
  | cons c cs ih => exact ih (c.run h) (never_connected_run c h hn)

theorem never_connected_create (hsize psize : Nat) :
    NeverConnected (rws_socket_create true hsize psize) :=
  ⟨_, rfl, rfl, rfl, rfl, rfl, by simp [releases, rws_socket_create, rws_malloc_zero,
      rws_malloc, journal, rws_mutex_create_recursive], by
    simp [is_error_alloc, rws_socket_create, rws_malloc_zero, rws_malloc, journal,
      rws_mutex_create_recursive]⟩

/-- C9: `rws_socket_create` (allocation succeeding) yields a handle with `port = -1`,
`command = NONE`, no transport, `is_connected = false` and no worker; every configuration
call keeps `command`, `is_connected` and the worker slot as they are; and on a created
handle, after any sequence of configuration calls, `rws_socket_disconnect_and_release`
runs the release exactly once, with the error slot empty and no error ever allocated. -/
theorem never_connected_released_immediately (hsize psize : Nat) (cs : List Config) :
    (∃ s, rws_socket_create true hsize psize = some s ∧ s.port = -1 ∧
      s.command = rws_command.COMMAND_NONE ∧ s.socket = RWS_INVALID_SOCKET ∧
      s.is_connected = false ∧ s.work_thread = none) ∧
    (∀ (c : Config) (s : _rws_socket), ∃ t, c.run (some s) = some t ∧
      t.command = s.command ∧ t.is_connected = s.is_connected ∧
      t.work_thread = s.work_thread) ∧
    ∃ s t, configure cs (rws_socket_create true hsize psize) = some s ∧
      s.command = rws_command.COMMAND_NONE ∧ s.is_connected = false ∧
      s.work_thread = none ∧
      rws_socket_disconnect_and_release (some s) = some t ∧
      releases t.heap_log = 1 ∧ t.error = none ∧
      t.heap_log.filter is_error_alloc = [] ∧
      t.heap_log.getLast? = some (Event.free Obj.handle) := by
  refine ⟨⟨_, rfl, rfl, rfl, rfl, rfl, rfl⟩, ?_, ?_⟩
  · intro c s
    obtain ⟨t, ht, k1, k2, k3, -⟩ := config_run_frame c s
    exact ⟨t, ht, k1, k2, k3⟩
  · obtain ⟨s, hs, h1, h2, h3, h4, h5, h6⟩ :=
      never_connected_configure cs _ (never_connected_create hsize psize)
    obtain ⟨p, ⟨p1, p2, p3, p4, p5, p6, p7, p8, p9⟩, hd⟩ := disconnect_dispatch s
    have hne : s.command ≠ rws_command.COMMAND_END := by rw [h1]; decide
    have hsp := rws_socket_delete_spec (rws_mutex_unlock Mutex.work_mutex p)
    refine ⟨s, rws_socket_delete (rws_mutex_unlock Mutex.work_mutex p), hs, h1, h2, h3, ?_,
      ?_, hsp.2.2.2.2.2.1, ?_, ?_⟩
    · rw [hd]
      simp only [h2, h3, hne, Option.isSome_none, Bool.false_eq_true, if_false, ne_eq,
        not_false_eq_true, if_true]
    · rw [hsp.2.2.2.2.2.2.2.1]
      simp [rws_mutex_unlock, p8, h5]
    · rw [hsp.2.2.2.2.2.2.2.2]
      simp [rws_mutex_unlock, p9, h6]
    · obtain ⟨t, -, ht⟩ := rws_socket_delete_calm (rws_mutex_unlock Mutex.work_mutex p)
      rw [ht]
      simp [journal]

end Librws
